import Mathlib

/-!
Shallow embedding of the CardMaster RAG engine (src/src/rag_engine.py and
src/src/document_loader.py) together with theorems settling the spec claims.

External capabilities (the sha256 hex digest, the canonical JSON dump with
sorted keys, the langchain text splitter applied to one document, the vector
similarity search, the HTTP fetch of one URL, the Scryfall and Tavily APIs)
are passed to the embedded functions as explicit function parameters; the
control flow around them is translated from the Python source.
-/

namespace CardMaster

/-- A langchain `Document`: page text plus optional `source` metadata entry
(`metadata.get("source")` yields `none` when the key is absent). -/
structure Doc where
  page_content : String
  source : Option String
deriving DecidableEq, Repr

/-- The persistent Chroma collection, as a list of `(id, document)` entries. -/
structure VectorStore where
  entries : List (String × Doc)
deriving DecidableEq, Repr

/-- `RAGConfig.SIMILARITY_TOP_K` from src/src/config.py. -/
def SIMILARITY_TOP_K : Nat := 7

/-- The effective `k` used by `retrieve_context`: Python evaluates
`k = k or RAGConfig.SIMILARITY_TOP_K`, so both `None` and `0` fall back to
the configured default. -/
def effective_k (k : Option Nat) : Nat :=
  match k with
  | none => SIMILARITY_TOP_K
  | some 0 => SIMILARITY_TOP_K
  | some n => n

/-- Rendering of one retrieved hit in `RAGEngine.retrieve_context`:
`f"Source: {doc.metadata.get('source', 'Unknown')}\nContent: {doc.page_content}"`. -/
def render_hit (doc : Doc) : String :=
  "Source: " ++ doc.source.getD "Unknown" ++ "\n" ++ "Content: " ++ doc.page_content

/-- `RAGEngine.retrieve_context` (src/src/rag_engine.py lines 189-212), with
the similarity search passed in as a capability `search : query → k → hits`:
it serializes the hits with `"\n\n".join(...)` and returns that string. -/
def retrieve_context (search : String → Nat → List Doc) (query : String)
    (k : Option Nat) : String :=
  let keff := effective_k k
  String.intercalate "\n\n" ((search query keff).map render_hit)

/-- The only "no information" sentence in the codebase: the line the agent
system prompt (src/src/agent_service.py) instructs the LLM to say when tool
results are empty or irrelevant. -/
def no_information_sentinel : String :=
  "I don\x27t have enough information in the current database to answer this question."

/-- `RAGEngine.generate_ids` (src/src/rag_engine.py lines 117-132) with the
sha256 hex digest passed as `h`: the chunk at enumeration index `i` gets id
`h ("<i>-<page_content>")`. -/
def generate_ids (h : String → String) (final_chunks : List Doc) : List String :=
  (final_chunks.enum).map (fun ic => h (toString ic.1 ++ "-" ++ ic.2.page_content))

/-- `RAGEngine._split_documents` (src/src/rag_engine.py lines 66-115) with
the langchain splitter applied to a single document passed as `splitOne`:
the loop splits each document on its own (`splitter.split_documents([doc])`)
and extends the accumulator in input order. -/
def split_documents (splitOne : Doc → List Doc) (docs : List Doc) : List Doc :=
  docs.foldl (fun final_chunks doc => final_chunks ++ splitOne doc) []

/-- One upsert into the Chroma collection: writing an existing id overwrites
its entry, a new id is appended. -/
def upsert_entry (entries : List (String × Doc)) (cid : String) (d : Doc) :
    List (String × Doc) :=
  if entries.any (fun e => e.1 == cid) then
    entries.map (fun e => if e.1 == cid then (cid, d) else e)
  else entries ++ [(cid, d)]

/-- `vector_store.add_documents(documents=chunks, ids=ids)`: embeds and writes
each `(id, chunk)` pair, upserting by id. Failure of the underlying storage
(IndexWriteFailure) is modelled by the `writable` flag: when storage is not
writable the call raises, which the Python caller does not catch. -/
def add_documents (writable : Bool) (store : VectorStore) (chunks : List Doc)
    (ids : List String) : Except String VectorStore :=
  if writable then
    Except.ok ⟨(List.zip ids chunks).foldl (fun es p => upsert_entry es p.1 p.2) store.entries⟩
  else Except.error "IndexWriteFailure"

/-- The ambient state read and written by `initialize_vector_store`:
the `HASH_CONFIG_FILE` environment entry (`none` when unset), the persistent
Chroma collection on disk, and whether that storage is writable. -/
structure EnvState where
  stored_hash : Option String
  disk : VectorStore
  writable : Bool
deriving DecidableEq, Repr

/-- The body of `RAGEngine.initialize_vector_store` after the cached-handle
early return (src/src/rag_engine.py lines 144-187). `h` is the sha256 hex
digest, `dumps` the canonical `json.dumps(·, sort_keys=True)` serialization,
`docs` the result of `document_loader.load_all_documents()`. Returns the
final ambient state together with either the raised exception or the vector
store and a flag recording whether the rebuild branch ran. The new hash is
persisted with `set_key` only after `add_documents` has returned. -/
def initialize_vector_store_core {M : Type} (h : String → String) (dumps : M → String)
    (splitOne : Doc → List Doc) (docs : List Doc) (config : M)
    (env : EnvState) : EnvState × Except String (VectorStore × Bool) :=
  if env.stored_hash ≠ some (h (dumps config)) ∨ env.disk.entries.length = 0 then
    match add_documents env.writable env.disk (split_documents splitOne docs)
        (generate_ids h (split_documents splitOne docs)) with
    | Except.error e => (env, Except.error e)
    | Except.ok vs =>
      ({ env with stored_hash := some (h (dumps config)), disk := vs },
       Except.ok (vs, true))
  else
    (env, Except.ok (env.disk, false))

/-- The collection contents produced by the rebuild branch: all chunk/id
pairs of the freshly split corpus upserted into the previous entries. -/
def rebuilt_store (h : String → String) (splitOne : Doc → List Doc) (docs : List Doc)
    (disk : VectorStore) : VectorStore :=
  ⟨(List.zip (generate_ids h (split_documents splitOne docs))
      (split_documents splitOne docs)).foldl
    (fun es p => upsert_entry es p.1 p.2) disk.entries⟩

/-- The in-session engine object: `self.vector_store` caches the handle after
the first successful call. -/
structure Engine where
  vector_store : Option VectorStore
deriving DecidableEq, Repr

/-- `RAGEngine.initialize_vector_store` (src/src/rag_engine.py lines 134-187)
including the `if _self.vector_store is not None: return _self.vector_store`
early return; on success the handle is cached on the engine. -/
def initialize_vector_store {M : Type} (h : String → String) (dumps : M → String)
    (splitOne : Doc → List Doc) (docs : List Doc) (config : M)
    (eng : Engine) (env : EnvState) :
    Engine × EnvState × Except String (VectorStore × Bool) :=
  match eng.vector_store with
  | some vs => (eng, env, Except.ok (vs, false))
  | none =>
    match initialize_vector_store_core h dumps splitOne docs config env with
    | (env1, Except.error e) => (eng, env1, Except.error e)
    | (env1, Except.ok (vs, rebuilt)) =>
      ({ vector_store := some vs }, env1, Except.ok (vs, rebuilt))

/-- `WebBaseLoader(...).load()` over a tuple of URLs, with the fetch of one
URL passed as `loadOne`. Models the langchain loader with its default
`continue_on_failure=False`: pages are scraped in order, one document per
URL, and the first fetch that raises aborts the whole call. -/
def webBaseLoader_load (loadOne : String → Except String Doc) :
    List String → Except String (List Doc)
  | [] => Except.ok []
  | u :: rest =>
    match loadOne u with
    | Except.error e => Except.error e
    | Except.ok d =>
      match webBaseLoader_load loadOne rest with
      | Except.error e => Except.error e
      | Except.ok ds => Except.ok (d :: ds)

/-- `DocumentLoader.load_web_documents` (src/src/document_loader.py lines
18-46): flattens the per-game URL lists of the config in order, returns `[]`
when there are none, and otherwise runs one `WebBaseLoader.load()` over all
URLs inside a single `try/except` that logs and returns `[]` on any raise. -/
def load_web_documents (loadOne : String → Except String Doc)
    (urls : List (String × List String)) : List Doc :=
  let all_urls := (urls.map Prod.snd).flatten
  if all_urls.isEmpty then []
  else
    match webBaseLoader_load loadOne all_urls with
    | Except.ok docs => docs
    | Except.error _ => []

/-- The parsed JSON body of a Scryfall `cards/named` response; every field
is read with `.get` except `name`, whose absence raises `KeyError`. -/
structure MTGData where
  name : Option String
  eur : Option String
  eur_foil : Option String
  scryfall_uri : Option String
deriving DecidableEq, Repr

/-- Outcome of `requests.get` against the Scryfall API: a response with a
status code and parsed body, or a raised exception (timeout, network). -/
inductive MTGResult where
  | response (status : Nat) (data : MTGData)
  | exn (msg : String)
deriving DecidableEq, Repr

/-- One Tavily search result entry. -/
structure TavilyItem where
  content : String
  url : String
deriving DecidableEq, Repr

/-- Outcome of `tavily_client.search`: a result list, or a raised exception. -/
inductive TavilyResult where
  | ok (results : List TavilyItem)
  | exn (msg : String)
deriving DecidableEq, Repr

/-- `RAGEngine.search_price_card` (src/src/rag_engine.py lines 214-266) with
the two external collaborators passed as `mtg` and `tavily`. The Python
function has no `return` after the `if/elif` chain, so every path that falls
out of it yields `None`, modelled as `none`. -/
def search_price_card (mtg : String → MTGResult) (tavily : String → TavilyResult)
    (game_name card_name : String) : Option String :=
  if game_name = "Magic The Gathering" then
    match mtg card_name with
    | MTGResult.response status data =>
      if status = 200 then
        match data.name with
        | some n =>
          some ("MTG Price for " ++ n ++ ":\n" ++
            "- Normal: " ++ data.eur.getD "N/A" ++ "€ | Foil: " ++
            data.eur_foil.getD "N/A" ++ "€\n" ++
            "- View: " ++ data.scryfall_uri.getD "None")
        | none => none
      else none
    | MTGResult.exn _ => none
  else if game_name = "Hearthstone" then
    match tavily card_name with
    | TavilyResult.ok results =>
      let details :=
        if results.length > 0 then
          String.intercalate "\n"
            (results.map (fun r => "- " ++ r.content ++ " (Source: " ++ r.url ++ ")"))
        else "No cost to craft information found."
      let link := "https://www.hearthpwn.com/cards?filter-name=" ++ card_name
      some ("Hearthstone Info for \x27" ++ card_name ++ "\x27:\n" ++ details ++ "\n" ++
        "- Source Link: " ++ link)
    | TavilyResult.exn _ =>
      some ("Manual search link for " ++ card_name ++
        ": https://www.hearthpwn.com/cards?filter-name=" ++ card_name)
  else none

/-- A web fetch where the first URL succeeds and every other URL fails:
concrete input exercising the per-URL failure behaviour of
`load_web_documents`. -/
def partialFetch (u : String) : Except String Doc :=
  if u = "https://a.example" then Except.ok (Doc.mk "A" (some u))
  else Except.error "fetch failed"

/-- Folding append of a pointwise split over a list is its flat map. -/
theorem foldl_append_flatMap {α β : Type} (f : α → List β) :
    ∀ (l : List α) (acc : List β),
      l.foldl (fun a d => a ++ f d) acc = acc ++ l.flatMap f
  | [], acc => by simp
  | x :: xs, acc => by
    simp [List.foldl, foldl_append_flatMap f xs (acc ++ f x)]

/-- C4: `generate_ids` assigns the chunk at ordinal position `i` the id
`sha256("<i>-<text of chunk i>")` (the digest passed as `h`): the output has
one id per chunk, the id at every position `i` is exactly the digest of the
position/text string, and the derivation is a pure function of the chunk
sequence, so running it twice yields the identical id sequence in order. -/
theorem generate_ids_position_hash (h : String → String) (chunks : List Doc) :
    (generate_ids h chunks).length = chunks.length ∧
    (∀ i : Nat, (generate_ids h chunks)[i]? =
      (chunks[i]?).map (fun c : Doc => h (toString i ++ "-" ++ c.page_content))) ∧
    generate_ids h chunks = generate_ids h chunks := by
  refine ⟨by simp [generate_ids], fun i => ?_, rfl⟩
  simp [generate_ids, List.getElem?_map, List.getElem?_enum, Option.map_map]
  rfl

/-- C9: `_split_documents` processes each document independently — the output
is exactly the concatenation, in input order, of the splitter applied to each
single document, every output chunk is produced by splitting exactly one
input document, and any per-document guarantee `P` of the splitter (such as
"the chunk text, overlap included, is drawn from this document") transfers to
every output chunk paired with its originating document. -/
theorem split_documents_per_document (splitOne : Doc → List Doc) (docs : List Doc)
    (P : Doc → Doc → Prop) (hP : ∀ d, ∀ c ∈ splitOne d, P c d) :
    split_documents splitOne docs = docs.flatMap splitOne ∧
    ∀ c ∈ split_documents splitOne docs, ∃ d ∈ docs, c ∈ splitOne d ∧ P c d := by
  have hsplit : split_documents splitOne docs = docs.flatMap splitOne := by
    simpa [split_documents] using foldl_append_flatMap splitOne docs []
  refine ⟨hsplit, ?_⟩
  intro c hc
  rw [hsplit] at hc
  rcases List.mem_flatMap.mp hc with ⟨d, hd, hcd⟩
  exact ⟨d, hd, hcd, hP d c hcd⟩

/-- Witness for the per-document splitting theorem at a concrete input. -/
theorem split_documents_per_document_witness :
    split_documents (fun d => [d]) [Doc.mk "ab" none] = [Doc.mk "ab" none] := by
  have hthm := split_documents_per_document (fun d => [d]) [Doc.mk "ab" none]
    (fun c d => c = d) (by intro d c hc; simpa using hc)
  rw [hthm.1]
  rfl

/-- C1 counterexample: with an empty hit set, `retrieve_context` returns the
empty string, not the "no information" sentence that the agent prompt
defines; the claim that the retrieval operation itself returns the sentinel
is therefore false at this input. -/
theorem retrieve_context_empty_no_sentinel :
    retrieve_context (fun _ _ => []) "How does flashback work?" none = "" ∧
    retrieve_context (fun _ _ => []) "How does flashback work?" none ≠
      no_information_sentinel :=
  ⟨rfl, by decide⟩

/-- C1 amended: whenever the similarity search returns zero hits — including
before any indexing — `retrieve_context` returns the empty string (the
`"\n\n".join` of no entries); it is the agent system prompt, not the
retrieval operation, that turns empty results into the "no information"
sentence. -/
theorem retrieve_context_empty_returns_empty (search : String → Nat → List Doc)
    (query : String) (k : Option Nat)
    (hempty : search query (effective_k k) = []) :
    retrieve_context search query k = "" := by
  show String.intercalate "\n\n" ((search query (effective_k k)).map render_hit) = ""
  rw [hempty]
  rfl

/-- Witness for the empty-retrieval theorem at a concrete input. -/
theorem retrieve_context_empty_returns_empty_witness :
    retrieve_context (fun _ _ => []) "q" (some 3) = "" :=
  retrieve_context_empty_returns_empty (fun _ _ => []) "q" (some 3) rfl

/-- C8: with a non-empty hit set of at most `k` hits, `retrieve_context`
returns exactly the hits in rank order, each rendered as a `"Source: "` line
with the chunk's source metadata followed by a `"Content: "` line with the
chunk text, consecutive entries joined by a blank line; the number of
rendered entries equals the number of hits and hence is at most `k`. -/
theorem retrieve_context_format (search : String → Nat → List Doc) (query : String)
    (k : Option Nat)
    (hk : (search query (effective_k k)).length ≤ effective_k k)
    (_hne : search query (effective_k k) ≠ []) :
    retrieve_context search query k =
      String.intercalate "\n\n"
        ((search query (effective_k k)).map (fun d =>
          "Source: " ++ d.source.getD "Unknown" ++ "\n" ++ "Content: " ++
            d.page_content)) ∧
    ((search query (effective_k k)).map (fun d =>
        "Source: " ++ d.source.getD "Unknown" ++ "\n" ++ "Content: " ++
          d.page_content)).length ≤ effective_k k := by
  refine ⟨rfl, by simpa using hk⟩

/-- Witness for the retrieval formatting theorem at a concrete input. -/
theorem retrieve_context_format_witness :
    retrieve_context (fun _ _ => [Doc.mk "ct" (some "src")]) "q" (some 1) =
      "Source: src\nContent: ct" := by
  have hthm := retrieve_context_format (fun _ _ => [Doc.mk "ct" (some "src")]) "q"
    (some 1) (by decide) (by decide)
  rw [hthm.1]
  rfl

/-- C10: `search_price_card` yields `none` on every fall-through path:
any game other than exactly "Magic The Gathering" or "Hearthstone",
the Magic The Gathering path with a non-200 response status, and the
Magic The Gathering path when the request raises. -/
theorem search_price_card_falls_through_none (mtg : String → MTGResult)
    (tavily : String → TavilyResult) (game card : String) :
    (game ≠ "Magic The Gathering" → game ≠ "Hearthstone" →
      search_price_card mtg tavily game card = none) ∧
    (∀ (status : Nat) (data : MTGData),
      mtg card = MTGResult.response status data → status ≠ 200 →
      search_price_card mtg tavily "Magic The Gathering" card = none) ∧
    (∀ msg : String, mtg card = MTGResult.exn msg →
      search_price_card mtg tavily "Magic The Gathering" card = none) := by
  refine ⟨?_, ?_, ?_⟩
  · intro h1 h2
    simp [search_price_card, h1, h2]
  · intro status data hmtg hstatus
    simp [search_price_card, hmtg, hstatus]
  · intro msg hmtg
    simp [search_price_card, hmtg]

/-- Witness for the fall-through theorem at a concrete input. -/
theorem search_price_card_falls_through_none_witness :
    search_price_card (fun _ => MTGResult.response 503 (MTGData.mk none none none none))
      (fun _ => TavilyResult.ok []) "Pokemon" "Pikachu" = none := by
  have hthm := search_price_card_falls_through_none
    (fun _ => MTGResult.response 503 (MTGData.mk none none none none))
    (fun _ => TavilyResult.ok []) "Pokemon" "Pikachu"
  exact hthm.1 (by decide) (by decide)

/-- C2: evaluating `search_price_card` at the failing input — a Magic The
Gathering lookup whose Scryfall request answers with status 404 — yields
`None`, not the failure-path string its own docstring and signature promise. -/
theorem search_price_card_404_is_none :
    search_price_card (fun _ => MTGResult.response 404 (MTGData.mk none none none none))
      (fun _ => TavilyResult.ok []) "Magic The Gathering" "Some Unknown Card" =
      none := by
  decide

/-- C5 counterexample: with a fetch that succeeds on the first URL and fails
on the second, `load_web_documents` returns `[]` — the successfully fetched
document of the surviving URL is dropped, contradicting the claim that only
the failing URL's documents are skipped. -/
theorem load_web_documents_drops_surviving_urls :
    load_web_documents partialFetch
      [("Magic The Gathering", ["https://a.example", "https://b.example"])] = [] ∧
    partialFetch "https://a.example" =
      Except.ok (Doc.mk "A" (some "https://a.example")) := by
  exact ⟨by decide, rfl⟩

/-- The modelled `WebBaseLoader.load` fails outright whenever the fetch of
any URL in its list raises. -/
theorem webBaseLoader_load_error_of_mem (loadOne : String → Except String Doc)
    (u e : String) (herr : loadOne u = Except.error e) :
    ∀ l : List String, u ∈ l →
      ∃ e2, webBaseLoader_load loadOne l = Except.error e2 := by
  intro l
  induction l with
  | nil => intro hmem; exact absurd hmem (List.not_mem_nil u)
  | cons v rest ih =>
    intro hmem
    rcases List.mem_cons.mp hmem with rfl | hrest
    · exact ⟨e, by simp [webBaseLoader_load, herr]⟩
    · cases hv : loadOne v with
      | error e2 => exact ⟨e2, by simp [webBaseLoader_load, hv]⟩
      | ok d =>
        rcases ih hrest with ⟨e2, he2⟩
        exact ⟨e2, by simp [webBaseLoader_load, hv, he2]⟩

/-- C5 amended: a failure while loading any single URL is caught and logged
at the level of the whole batched `WebBaseLoader.load` call, so
`load_web_documents` returns the empty list: the indexing batch is not
aborted, but the documents of the remaining URLs are dropped along with the
failing one rather than returned. -/
theorem load_web_documents_any_failure_drops_all (loadOne : String → Except String Doc)
    (urls : List (String × List String)) (u e : String)
    (hu : u ∈ (urls.map Prod.snd).flatten) (herr : loadOne u = Except.error e) :
    load_web_documents loadOne urls = [] := by
  rcases webBaseLoader_load_error_of_mem loadOne u e herr _ hu with ⟨e2, he2⟩
  by_cases hemp : ((urls.map Prod.snd).flatten).isEmpty
  · simp [load_web_documents, hemp]
  · simp [load_web_documents, hemp, he2]

/-- Witness for the dropped-batch theorem at a concrete input. -/
theorem load_web_documents_any_failure_drops_all_witness :
    load_web_documents partialFetch
      [("Hearthstone", ["https://a.example", "https://b.example"])] = [] :=
  load_web_documents_any_failure_drops_all partialFetch
    [("Hearthstone", ["https://a.example", "https://b.example"])]
    "https://b.example" "fetch failed" (by decide) rfl

/-- On the stale-or-empty branch with writable storage, the core rebuild
upserts the freshly split corpus and then persists the new hash. -/
theorem core_rebuild_eq {M : Type} (h : String → String) (dumps : M → String)
    (splitOne : Doc → List Doc) (docs : List Doc) (config : M) (env : EnvState)
    (hw : env.writable = true)
    (hstale : env.stored_hash ≠ some (h (dumps config)) ∨ env.disk.entries.length = 0) :
    initialize_vector_store_core h dumps splitOne docs config env =
      ({ env with
          stored_hash := some (h (dumps config)),
          disk := rebuilt_store h splitOne docs env.disk },
       Except.ok (rebuilt_store h splitOne docs env.disk, true)) := by
  unfold initialize_vector_store_core
  rw [if_pos hstale, hw]
  rfl

/-- On the fresh branch the core call changes nothing and reports no rebuild. -/
theorem core_noop_eq {M : Type} (h : String → String) (dumps : M → String)
    (splitOne : Doc → List Doc) (docs : List Doc) (config : M) (env : EnvState)
    (hfresh : ¬(env.stored_hash ≠ some (h (dumps config)) ∨ env.disk.entries.length = 0)) :
    initialize_vector_store_core h dumps splitOne docs config env =
      (env, Except.ok (env.disk, false)) := by
  unfold initialize_vector_store_core
  rw [if_neg hfresh]

/-- On the stale-or-empty branch with unwritable storage, the upsert raises
and the raise propagates with the ambient state untouched. -/
theorem core_error_eq {M : Type} (h : String → String) (dumps : M → String)
    (splitOne : Doc → List Doc) (docs : List Doc) (config : M) (env : EnvState)
    (hw : env.writable = false)
    (hstale : env.stored_hash ≠ some (h (dumps config)) ∨ env.disk.entries.length = 0) :
    initialize_vector_store_core h dumps splitOne docs config env =
      (env, Except.error "IndexWriteFailure") := by
  unfold initialize_vector_store_core
  rw [if_pos hstale, hw]
  rfl

/-- C3: with writable storage, the ensure-fresh core runs the rebuild branch
exactly when the persisted fingerprint differs from the hash of the
canonically serialized manifest or the index entry count is zero; in every
other case it reports no rebuild and returns the ambient state and the
on-disk index unchanged. -/
theorem initialize_vector_store_core_rebuild_iff {M : Type} (h : String → String)
    (dumps : M → String) (splitOne : Doc → List Doc) (docs : List Doc) (config : M)
    (env : EnvState) (hw : env.writable = true) :
    ∃ env1 vs rebuilt,
      initialize_vector_store_core h dumps splitOne docs config env =
        (env1, Except.ok (vs, rebuilt)) ∧
      (rebuilt = true ↔
        (env.stored_hash ≠ some (h (dumps config)) ∨ env.disk.entries.length = 0)) ∧
      (rebuilt = false → env1 = env ∧ vs = env.disk) := by
  by_cases hc : env.stored_hash ≠ some (h (dumps config)) ∨ env.disk.entries.length = 0
  · exact ⟨_, _, true, core_rebuild_eq h dumps splitOne docs config env hw hc,
      by simpa using hc, by simp⟩
  · exact ⟨env, env.disk, false, core_noop_eq h dumps splitOne docs config env hc,
      by simpa using hc, fun _ => ⟨rfl, rfl⟩⟩

/-- Witness for the rebuild-iff theorem at a concrete fresh input. -/
theorem initialize_vector_store_core_rebuild_iff_witness :
    ∃ env1 vs rebuilt,
      initialize_vector_store_core (fun s : String => s) (fun s : String => s)
        (fun d => [d]) [] "cfg"
        (EnvState.mk (some "cfg") (VectorStore.mk [("i", Doc.mk "t" none)]) true) =
        (env1, Except.ok (vs, rebuilt)) := by
  obtain ⟨env1, vs, rebuilt, heq, -, -⟩ := initialize_vector_store_core_rebuild_iff
    (fun s : String => s) (fun s : String => s) (fun d => [d]) [] "cfg"
    (EnvState.mk (some "cfg") (VectorStore.mk [("i", Doc.mk "t" none)]) true) rfl
  exact ⟨env1, vs, rebuilt, heq⟩

/-- C6: starting from a session with no cached handle and a stale or empty
index, the first `initialize_vector_store` call runs exactly one rebuild —
it upserts and persists the new fingerprint — and the immediately following
call with the unchanged manifest is a no-op: same engine, same ambient state
(no second upsert, no fingerprint write), rebuild flag false. -/
theorem initialize_vector_store_idempotent {M : Type} (h : String → String)
    (dumps : M → String) (splitOne : Doc → List Doc) (docs : List Doc) (config : M)
    (env : EnvState) (hw : env.writable = true)
    (hstale : env.stored_hash ≠ some (h (dumps config)) ∨ env.disk.entries.length = 0) :
    ∃ vs env1,
      initialize_vector_store h dumps splitOne docs config (Engine.mk none) env =
        (Engine.mk (some vs), env1, Except.ok (vs, true)) ∧
      env1.stored_hash = some (h (dumps config)) ∧
      initialize_vector_store h dumps splitOne docs config (Engine.mk (some vs)) env1 =
        (Engine.mk (some vs), env1, Except.ok (vs, false)) := by
  refine ⟨rebuilt_store h splitOne docs env.disk,
    { env with
        stored_hash := some (h (dumps config)),
        disk := rebuilt_store h splitOne docs env.disk }, ?_, rfl, rfl⟩
  unfold initialize_vector_store
  rw [core_rebuild_eq h dumps splitOne docs config env hw hstale]

/-- Witness for the freshness-idempotence theorem at a concrete input. -/
theorem initialize_vector_store_idempotent_witness :
    ∃ vs env1,
      initialize_vector_store (fun s : String => s) (fun s : String => s)
        (fun d => [d]) [Doc.mk "t" (some "s")] "cfg" (Engine.mk none)
        (EnvState.mk none (VectorStore.mk []) true) =
        (Engine.mk (some vs), env1, Except.ok (vs, true)) := by
  obtain ⟨vs, env1, h1, -, -⟩ := initialize_vector_store_idempotent
    (fun s : String => s) (fun s : String => s) (fun d => [d])
    [Doc.mk "t" (some "s")] "cfg" (EnvState.mk none (VectorStore.mk []) true)
    rfl (Or.inl (by decide))
  exact ⟨vs, env1, h1⟩

/-- C7: the new fingerprint is persisted only after a successful upsert — if
storage is unwritable the core call leaves the ambient state (in particular
the previously stored fingerprint) unchanged, and on the stale branch it
surfaces the write failure; on the fresh branch no fingerprint write happens
at all and the previous index stays as it was. -/
theorem fingerprint_persist_after_upsert {M : Type} (h : String → String)
    (dumps : M → String) (splitOne : Doc → List Doc) (docs : List Doc) (config : M)
    (env : EnvState) :
    (env.writable = false →
      (initialize_vector_store_core h dumps splitOne docs config env).1 = env) ∧
    (env.stored_hash = some (h (dumps config)) → env.disk.entries.length ≠ 0 →
      initialize_vector_store_core h dumps splitOne docs config env =
        (env, Except.ok (env.disk, false))) ∧
    (env.writable = false →
      (env.stored_hash ≠ some (h (dumps config)) ∨ env.disk.entries.length = 0) →
      (initialize_vector_store_core h dumps splitOne docs config env).2 =
        Except.error "IndexWriteFailure") := by
  refine ⟨?_, ?_, ?_⟩
  · intro hw
    by_cases hc : env.stored_hash ≠ some (h (dumps config)) ∨ env.disk.entries.length = 0
    · rw [core_error_eq h dumps splitOne docs config env hw hc]
    · rw [core_noop_eq h dumps splitOne docs config env hc]
  · intro h1 h2
    refine core_noop_eq h dumps splitOne docs config env ?_
    rintro (hne | h0)
    · exact hne h1
    · exact h2 h0
  · intro hw hc
    rw [core_error_eq h dumps splitOne docs config env hw hc]

/-- Witness for the fingerprint-persistence theorem at a concrete input. -/
theorem fingerprint_persist_after_upsert_witness :
    (initialize_vector_store_core (fun s : String => s) (fun s : String => s)
      (fun d => [d]) [] "cfg" (EnvState.mk none (VectorStore.mk []) false)).1 =
      EnvState.mk none (VectorStore.mk []) false := by
  have hthm := fingerprint_persist_after_upsert (fun s : String => s)
    (fun s : String => s) (fun d => [d]) [] "cfg"
    (EnvState.mk none (VectorStore.mk []) false)
  exact hthm.1 rfl

end CardMaster
